import Mathlib

/-!
Shallow embedding of the silius bundling core:
* the sender sanity-check rule of the mempool validation pipeline
  (src/crates/mempool/src/validate/sanity/sender.rs), and
* the bundler gRPC service (src/crates/grpc/src/bundler.rs):
  send_bundles, start_bundling / stop_bundling, send_bundle_now.

Addresses, transaction hashes and bytes are modelled as natural numbers;
U256 fee fields are naturals (no arithmetic in the source can overflow
or reach 2^256 in the checked comparisons, which are order comparisons).
Network calls are modelled as explicit oracles (`Except`-valued
functions); a Rust panic (`expect`) is a distinguished `RunResult.panic`
outcome, distinct from a returned error.
-/

/-- A user operation: sender address, nonce, init code, call data, the
two fee fields, and signature, as in `silius_primitives::UserOperation`
(fields restricted to those the checked code reads). -/
structure UserOperation where
  sender : Nat
  nonce : Nat
  init_code : List Nat
  call_data : List Nat
  max_fee_per_gas : Nat
  max_priority_fee_per_gas : Nat
  signature : List Nat
deriving DecidableEq, Repr

/-- The sanity-check error type: `Provider` carries an upstream RPC
diagnostic, `Sender` a semantic rule violation diagnostic. -/
inductive SanityError where
  | Provider (inner : String)
  | Sender (inner : String)
deriving DecidableEq, Repr

/-- Modelled from the spec: `GAS_INCREASE_PERC`, the fixed configured
minimum replacement fee increase, in percent.  The constant lives in
`silius_primitives::constants::mempool`, which is not under src/; the
spec fixes the fraction p = 0.10 in its examples, i.e. 10 percent. -/
def GAS_INCREASE_PERC : Nat := 10

/-- Modelled from the spec: `calculate_valid_gas` from the mempool
crate utils (not under src/): the smallest fee that is at least
`gas * (1 + incrPerc/100)`, i.e. the ceiling of `gas * (100+incrPerc) / 100`. -/
def calculate_valid_gas (gas incrPerc : Nat) : Nat :=
  (gas * (100 + incrPerc) + 99) / 100

/-- Modelled from the spec: `Mempool::get_all_by_sender` — the mempool
storage is an external collaborator; a mempool view is the list of
pending operations, and the query returns those of the given sender. -/
def get_all_by_sender (mempool : List UserOperation) (s : Nat) : List UserOperation :=
  mempool.filter (fun uo => uo.sender == s)

/-- Modelled from the spec: `Mempool::get_number_by_sender` — the count
of pending operations of the given sender. -/
def get_number_by_sender (mempool : List UserOperation) (s : Nat) : Nat :=
  (get_all_by_sender mempool s).length

/-- Diagnostic of the bytecode/init_code rejection in `check_user_operation`. -/
def senderInitCodeMsg : String :=
  "sender is an existing contract, or the initCode is not empty (but not both)"

/-- Diagnostic of the replacement-fee rejection in `check_user_operation`. -/
def gasIncreaseMsg : String :=
  "could not replace user operation (gas increase too low)"

/-- `Sender::check_user_operation` from
src/crates/mempool/src/validate/sanity/sender.rs.  `getCodeResult` is
the outcome of the `get_code(uo.sender)` RPC; `mempool` is the mempool
view.  Mirrors the source: a failed bytecode query becomes a `Provider`
error; then the bytecode/init_code rule; then the first-operation fast
path; then the replacement-fee rule against the first pending operation
of the same sender with the same nonce. -/
def check_user_operation (getCodeResult : Except String (List Nat))
    (uo : UserOperation) (mempool : List UserOperation) :
    Except SanityError Unit :=
  match getCodeResult with
  | Except.error e => Except.error (SanityError.Provider e)
  | Except.ok code =>
    if (code.isEmpty && uo.init_code.isEmpty) ||
        (!code.isEmpty && !uo.init_code.isEmpty) then
      Except.error (SanityError.Sender senderInitCodeMsg)
    else if get_number_by_sender mempool uo.sender == 0 then
      Except.ok ()
    else
      match (get_all_by_sender mempool uo.sender).find?
          (fun uo_prev => uo_prev.nonce == uo.nonce) with
      | some uo_prev =>
        if uo.max_fee_per_gas <
            calculate_valid_gas uo_prev.max_fee_per_gas GAS_INCREASE_PERC ||
            uo.max_priority_fee_per_gas <
              calculate_valid_gas uo_prev.max_priority_fee_per_gas GAS_INCREASE_PERC then
          Except.error (SanityError.Sender gasIncreaseMsg)
        else
          Except.ok ()
      | none => Except.ok ()

/-- The required minimum fee is at most `n` exactly when `n` is at least
`gas * (1 + incrPerc/100)` over the rationals: the ceiling division in
`calculate_valid_gas` realizes the spec inequality exactly. -/
lemma calculate_valid_gas_le_iff (gas incrPerc n : Nat) :
    calculate_valid_gas gas incrPerc ≤ n ↔
      (gas : ℚ) * (1 + (incrPerc : ℚ) / 100) ≤ (n : ℚ) := by
  unfold calculate_valid_gas
  rw [Nat.div_le_iff_le_mul_add_pred (by norm_num : 0 < 100)]
  constructor
  · intro h
    have h2 : gas * (100 + incrPerc) ≤ 100 * n := by omega
    have h3 : ((gas * (100 + incrPerc) : Nat) : ℚ) ≤ ((100 * n : Nat) : ℚ) := by
      exact_mod_cast h2
    push_cast at h3
    nlinarith
  · intro h
    have h3 : ((gas * (100 + incrPerc) : Nat) : ℚ) ≤ ((100 * n : Nat) : ℚ) := by
      push_cast
      nlinarith
    have h2 : gas * (100 + incrPerc) ≤ 100 * n := by exact_mod_cast h3
    omega

/-- A bundler, one per target entry-point contract.  Modelled from the
spec for the fields the checked code reads: the `silius_bundler::Bundler`
type is not under src/; the service code uses its `entry_point` address
and its `eth_client` handle (modelled as a client identifier). -/
structure Bundler where
  entry_point : Nat
  eth_client : Nat
deriving DecidableEq, Repr

/-- The world the service talks to: the mempool query
(`get_sorted_user_operations`, keyed by entry point and by tick so that
different calls may answer differently), the bundler submission
(`send_bundle`, from the external `silius_bundler` crate, keyed by entry
point), and the receipt query (`get_transaction_receipt`, keyed by
client identifier, transaction hash and poll index). -/
structure Env where
  get_sorted_user_operations : Nat → Except String (List UserOperation)
  send_bundle : Nat → List UserOperation → Except String (Option Nat)
  get_transaction_receipt : Nat → Nat → Nat → Except String (Option Unit)

/-- Outcome of running a piece of the service: a value, a returned
error (Rust `Err`), or an aborted task (Rust `panic!` / `expect`). -/
inductive RunResult (α : Type) where
  | ok : α → RunResult α
  | err : String → RunResult α
  | panic : String → RunResult α
deriving DecidableEq, Repr

/-- `BundlerService` state: the owned bundlers, the shared running
flag, plus an accounting of the entry points of the periodic loop tasks
spawned so far (one entry per `tokio::spawn` in `start_bundling`). -/
structure BundlerService where
  bundlers : List Bundler
  running : Bool
  spawned : List Nat
deriving DecidableEq, Repr

/-- `BundlerService::new` (src/crates/grpc/src/bundler.rs): stores the
bundler list as given — with no validation of any kind — and sets the
running flag to false.  No loop task has been spawned yet. -/
def BundlerService.new (bundlers : List Bundler) : BundlerService :=
  { bundlers := bundlers, running := false, spawned := [] }

/-- The `for bundler in self.bundlers` loop body of `send_bundles`:
fetch the bundler's sorted user operations, call `send_bundle`, push
the resulting optional transaction hash; the `?` operator propagates
the first fetch or send error. -/
def collect_tx_hashes (env : Env) : List Bundler → Except String (List (Option Nat))
  | [] => Except.ok []
  | b :: bs =>
    match env.get_sorted_user_operations b.entry_point with
    | Except.error e => Except.error e
    | Except.ok uos =>
      match env.send_bundle b.entry_point uos with
      | Except.error e => Except.error e
      | Except.ok h =>
        match collect_tx_hashes env bs with
        | Except.error e => Except.error e
        | Except.ok rest => Except.ok (h :: rest)

/-- `BundlerService::send_bundles`: run the per-bundler loop, then
return the FIRST collected outcome; the `expect` on the first element
panics when the bundler list is empty. -/
def send_bundles (env : Env) (bundlers : List Bundler) : RunResult (Option Nat) :=
  match collect_tx_hashes env bundlers with
  | Except.error e => RunResult.err e
  | Except.ok tx_hashes =>
    match tx_hashes with
    | [] => RunResult.panic "At least one bundler must be present"
    | h :: _ => RunResult.ok h

/-- `BundlerService::stop_bundling`: set the shared running flag to false. -/
def stop_bundling (s : BundlerService) : BundlerService :=
  { s with running := false }

/-- `BundlerService::is_running`: read the shared running flag. -/
def is_running (s : BundlerService) : Bool :=
  s.running

/-- `BundlerService::start_bundling`: when the flag is already set this
is a no-op; otherwise set the flag and spawn one periodic loop task per
owned bundler (recorded by entry point, in order).  The interval only
parameterizes the spawned loops, not the state transition. -/
def start_bundling (s : BundlerService) (int : Nat) : BundlerService :=
  if is_running s then s
  else
    { s with
      running := true,
      spawned := s.spawned ++ s.bundlers.map (fun b => b.entry_point) }

/-- What one tick of the periodic loop in `start_bundling` does after
the running-flag check, for a given tick's fetch and send outcomes:
a fetch error is logged, a send error is logged, otherwise the bundle
was submitted.  Nothing here escapes the loop. -/
inductive TickEvent where
  | sent (h : Option Nat)
  | sendError (e : String)
  | fetchError (e : String)
deriving DecidableEq, Repr

/-- The event of tick `t` of one bundler's periodic loop, given the
tick-indexed fetch and send oracles: mirrors the
`match Self::get_user_operations(..)` block of the spawned task. -/
def tick_event (fetch : Nat → Except String (List UserOperation))
    (send : Nat → List UserOperation → Except String (Option Nat))
    (t : Nat) : TickEvent :=
  match fetch t with
  | Except.error e => TickEvent.fetchError e
  | Except.ok uos =>
    match send t uos with
    | Except.error e => TickEvent.sendError e
    | Except.ok h => TickEvent.sent h

/-- The periodic task spawned per bundler by `start_bundling`:
`flag t` is the value the shared running flag holds when tick `t`
re-checks it.  Runs for at most `fuel` ticks starting at tick `t`;
returns the tick at which the loop observed the flag false and broke,
together with the events of the ticks executed before that, or `none`
when `fuel` ticks passed without the loop terminating. -/
def bundler_loop (flag : Nat → Bool)
    (fetch : Nat → Except String (List UserOperation))
    (send : Nat → List UserOperation → Except String (Option Nat)) :
    Nat → Nat → Option (Nat × List TickEvent)
  | 0, _ => none
  | fuel + 1, t =>
    if flag t = false then
      some (t, [])
    else
      match bundler_loop flag fetch send fuel (t + 1) with
      | none => none
      | some (tEnd, evs) => some (tEnd, tick_event fetch send t :: evs)

/-- The receipt-polling loop of `send_bundle_now`: poll `stub k` for
`k = start, start+1, ...`; break as soon as a poll returns
`Ok(Some(receipt))`; on `Err(_)` or `Ok(None)` sleep and poll again.
Returns the total number of polls performed at the moment the loop
breaks, or `none` when `fuel` polls were not enough (the call has not
returned yet). -/
def poll_receipt (stub : Nat → Except String (Option Unit)) :
    Nat → Nat → Option Nat
  | 0, _ => none
  | fuel + 1, k =>
    match stub k with
    | Except.ok (some _) => some (k + 1)
    | _ => poll_receipt stub fuel (k + 1)

/-- `Bundler::send_bundle_now` (the gRPC handler): call `send_bundles`;
an error becomes a returned status error.  When a transaction hash was
produced, poll the FIRST bundler's eth client for its receipt until one
is observed, then return the hash; when no transaction was produced,
return immediately (zero polls) with the default hash 0
(`res.unwrap_or_default()`).  The result pairs the number of receipt
polls performed with the returned hash; `none` means the call is still
inside the polling loop after `fuel` polls. -/
def send_bundle_now (env : Env) (s : BundlerService) (fuel : Nat) :
    Option (RunResult (Nat × Nat)) :=
  match send_bundles env s.bundlers with
  | RunResult.err e => some (RunResult.err e)
  | RunResult.panic m => some (RunResult.panic m)
  | RunResult.ok none => some (RunResult.ok (0, 0))
  | RunResult.ok (some tx_hash) =>
    match s.bundlers.head? with
    | none => some (RunResult.panic "Must have at least one bundler")
    | some b0 =>
      match poll_receipt (fun k => env.get_transaction_receipt b0.eth_client tx_hash k) fuel 0 with
      | none => none
      | some polls => some (RunResult.ok (polls, tx_hash))

/-- The boolean guard of the bytecode/init_code rejection is false
exactly when exactly one of bytecode-present and init_code-non-empty
holds. -/
lemma init_code_guard_eq_false_iff (code ic : List Nat) :
    (((code.isEmpty && ic.isEmpty) || (!code.isEmpty && !ic.isEmpty)) = false) ↔
      Xor' (code ≠ []) (ic ≠ []) := by
  cases code <;> cases ic <;> simp [Xor']

/-- The boolean guard of the bytecode/init_code rejection is true
exactly when NOT exactly one of bytecode-present and
init_code-non-empty holds. -/
lemma init_code_guard_eq_true_iff (code ic : List Nat) :
    (((code.isEmpty && ic.isEmpty) || (!code.isEmpty && !ic.isEmpty)) = true) ↔
      ¬ Xor' (code ≠ []) (ic ≠ []) := by
  cases code <;> cases ic <;> simp [Xor']

/-- The two `Sender` diagnostics are distinct strings. -/
lemma senderInitCodeMsg_ne_gasIncreaseMsg : senderInitCodeMsg ≠ gasIncreaseMsg := by
  decide

/-- With a successful bytecode query, the sender check returns the
bytecode/init_code rejection exactly when its boolean guard is true. -/
lemma check_init_code_error_iff_guard (code : List Nat) (uo : UserOperation)
    (mempool : List UserOperation) :
    check_user_operation (Except.ok code) uo mempool =
        Except.error (SanityError.Sender senderInitCodeMsg) ↔
      ((code.isEmpty && uo.init_code.isEmpty) ||
        (!code.isEmpty && !uo.init_code.isEmpty)) = true := by
  simp only [check_user_operation]
  split_ifs with h1 h2
  · simp [h1]
  · simp [h1]
  · cases hfind : (get_all_by_sender mempool uo.sender).find?
        (fun uo_prev => uo_prev.nonce == uo.nonce) with
    | none => simp [h1]
    | some uo_prev =>
      simp only
      split_ifs with h3
      · refine iff_of_false ?_ (by simpa using h1)
        intro hh
        have : gasIncreaseMsg = senderInitCodeMsg := by
          injection hh with hh2
          injection hh2
        exact senderInitCodeMsg_ne_gasIncreaseMsg this.symm
      · simp [h1]

/-- C4. Bytecode/init_code rule of the sender sanity check: with the
bytecode query succeeding with `code`, `check_user_operation` returns
the `Sender` bytecode/init_code rejection exactly when NOT exactly one
of bytecode-present, init_code-non-empty holds; when exactly one holds
the operation passes this stage. -/
theorem sender_check_bytecode_init_code_xor (code : List Nat) (uo : UserOperation)
    (mempool : List UserOperation) :
    check_user_operation (Except.ok code) uo mempool =
        Except.error (SanityError.Sender senderInitCodeMsg) ↔
      ¬ Xor' (code ≠ []) (uo.init_code ≠ []) :=
  (check_init_code_error_iff_guard code uo mempool).trans
    (init_code_guard_eq_true_iff code uo.init_code)

/-- C9. A failed bytecode query makes the sender check return a
`Provider` error carrying the upstream diagnostic, and the `Provider`
variant is distinct from every `Sender` variant. -/
theorem sender_check_provider_error (e : String) (uo : UserOperation)
    (mempool : List UserOperation) :
    check_user_operation (Except.error e) uo mempool =
        Except.error (SanityError.Provider e) ∧
      ∀ s : String, (SanityError.Provider e : SanityError) ≠ SanityError.Sender s :=
  ⟨rfl, fun s h => SanityError.noConfusion h⟩

/-- C8. First-operation fast path: when the bytecode/init_code stage
passes and the mempool holds no pending operation of this sender, the
sender check succeeds, whatever the fee fields hold. -/
theorem sender_check_first_operation_fast_path (code : List Nat) (uo : UserOperation)
    (mempool : List UserOperation)
    (hxor : Xor' (code ≠ []) (uo.init_code ≠ []))
    (hzero : get_number_by_sender mempool uo.sender = 0) :
    check_user_operation (Except.ok code) uo mempool = Except.ok () := by
  have hguard : ((code.isEmpty && uo.init_code.isEmpty) ||
      (!code.isEmpty && !uo.init_code.isEmpty)) = false :=
    (init_code_guard_eq_false_iff code uo.init_code).mpr hxor
  simp [check_user_operation, hguard, hzero]

/-- Witness for the first-operation fast path at a concrete input. -/
theorem sender_check_first_operation_fast_path_witness :
    check_user_operation (Except.ok [1])
      { sender := 5, nonce := 0, init_code := [], call_data := [],
        max_fee_per_gas := 0, max_priority_fee_per_gas := 0, signature := [] } [] =
      Except.ok () :=
  sender_check_first_operation_fast_path [1]
    { sender := 5, nonce := 0, init_code := [], call_data := [],
      max_fee_per_gas := 0, max_priority_fee_per_gas := 0, signature := [] } []
    (Or.inl ⟨by decide, by decide⟩) (by decide)

/-- C1. Replacement rule of the sender sanity check: when the
bytecode/init_code stage passes and the mempool lookup finds a previous
pending operation of the same sender with the same nonce, the check
succeeds exactly when both fee fields grew by at least the configured
fraction, and otherwise it fails with the `Sender` replacement-fee
error. -/
theorem sender_check_replacement_rule (code : List Nat) (uo uo_prev : UserOperation)
    (mempool : List UserOperation)
    (hxor : Xor' (code ≠ []) (uo.init_code ≠ []))
    (hfind : (get_all_by_sender mempool uo.sender).find?
        (fun p => p.nonce == uo.nonce) = some uo_prev) :
    (check_user_operation (Except.ok code) uo mempool = Except.ok () ↔
      ((uo_prev.max_fee_per_gas : ℚ) * (1 + (GAS_INCREASE_PERC : ℚ) / 100) ≤
          (uo.max_fee_per_gas : ℚ) ∧
        (uo_prev.max_priority_fee_per_gas : ℚ) * (1 + (GAS_INCREASE_PERC : ℚ) / 100) ≤
          (uo.max_priority_fee_per_gas : ℚ)))
    ∧ (check_user_operation (Except.ok code) uo mempool = Except.ok () ∨
        check_user_operation (Except.ok code) uo mempool =
          Except.error (SanityError.Sender gasIncreaseMsg)) := by
  have hguard : ((code.isEmpty && uo.init_code.isEmpty) ||
      (!code.isEmpty && !uo.init_code.isEmpty)) = false :=
    (init_code_guard_eq_false_iff code uo.init_code).mpr hxor
  have hmem : uo_prev ∈ get_all_by_sender mempool uo.sender :=
    List.mem_of_find?_eq_some hfind
  have hlen : get_number_by_sender mempool uo.sender ≠ 0 := by
    simp only [ne_eq, get_number_by_sender, List.length_eq_zero]
    exact List.ne_nil_of_mem hmem
  have hbeq : (get_number_by_sender mempool uo.sender == 0) = false := by
    simpa using hlen
  simp only [check_user_operation, hguard, hbeq, hfind, Bool.false_eq_true, if_false]
  constructor
  · split_ifs with h
    · refine iff_of_false (by simp) ?_
      rintro ⟨hq1, hq2⟩
      rw [← calculate_valid_gas_le_iff] at hq1 hq2
      simp only [Bool.or_eq_true, decide_eq_true_eq] at h
      omega
    · refine iff_of_true rfl ?_
      simp only [Bool.or_eq_true, decide_eq_true_eq] at h
      push_neg at h
      refine ⟨?_, ?_⟩
      · rw [← calculate_valid_gas_le_iff]
        omega
      · rw [← calculate_valid_gas_le_iff]
        omega
  · split_ifs with h
    · exact Or.inr rfl
    · exact Or.inl rfl

/-- Concrete previous operation of the replacement-rule example: fees 100. -/
def uoPrev100 : UserOperation :=
  { sender := 1, nonce := 0, init_code := [], call_data := [],
    max_fee_per_gas := 100, max_priority_fee_per_gas := 100, signature := [] }

/-- Concrete replacing operation of the replacement-rule example: fees 115. -/
def uoNew115 : UserOperation :=
  { sender := 1, nonce := 0, init_code := [], call_data := [],
    max_fee_per_gas := 115, max_priority_fee_per_gas := 115, signature := [] }

/-- Witness for the replacement rule at the concrete example of the
spec: previous fees 100, new fees 115, fraction 10 percent. -/
theorem sender_check_replacement_rule_witness :
    check_user_operation (Except.ok [1]) uoNew115 [uoPrev100] = Except.ok () :=
  ((sender_check_replacement_rule [1] uoNew115 uoPrev100 [uoPrev100]
    (Or.inl ⟨by decide, by decide⟩) (by decide)).1).mpr
    ⟨by norm_num [uoPrev100, uoNew115, GAS_INCREASE_PERC],
      by norm_num [uoPrev100, uoNew115, GAS_INCREASE_PERC]⟩

/-- An environment whose oracles always answer trivially. -/
def envTrivial : Env :=
  { get_sorted_user_operations := fun _ => Except.ok [],
    send_bundle := fun _ _ => Except.ok none,
    get_transaction_receipt := fun _ _ _ => Except.ok none }

/-- C2 counterexample. A zero-bundler configuration is NOT rejected at
startup: `BundlerService::new` accepts the empty bundler list and
builds the service, and the zero-bundler condition then surfaces as a
runtime panic inside the `send_bundles` service call. -/
theorem zero_bundlers_accepted_then_panics :
    BundlerService.new [] =
        { bundlers := [], running := false, spawned := [] } ∧
      send_bundles envTrivial (BundlerService.new []).bundlers =
        RunResult.panic "At least one bundler must be present" :=
  ⟨rfl, rfl⟩

/-- C2 amended. `BundlerService::new` performs no validation: it stores
any bundler list, including the empty one, with the running flag down;
the zero-bundler condition surfaces only at runtime, as a panic inside
`send_bundles`, in every environment. -/
theorem zero_bundlers_runtime_panic (bundlers : List Bundler) (env : Env) :
    (BundlerService.new bundlers).bundlers = bundlers ∧
      (BundlerService.new bundlers).running = false ∧
      send_bundles env [] = RunResult.panic "At least one bundler must be present" :=
  ⟨rfl, rfl, rfl⟩

/-- When every fetch and every send succeeds, the per-bundler loop of
`send_bundles` collects one outcome per bundler, in configured order. -/
lemma collect_tx_hashes_map (env : Env) (l : List Bundler)
    (uosOf : Bundler → List UserOperation) (hOf : Bundler → Option Nat)
    (hfetch : ∀ b2 ∈ l,
      env.get_sorted_user_operations b2.entry_point = Except.ok (uosOf b2))
    (hsend : ∀ b2 ∈ l, env.send_bundle b2.entry_point (uosOf b2) = Except.ok (hOf b2)) :
    collect_tx_hashes env l = Except.ok (l.map hOf) := by
  induction l with
  | nil => rfl
  | cons b bs ih =>
    have h1 := hfetch b (by simp)
    have h2 := hsend b (by simp)
    have h3 := ih (fun x hx => hfetch x (by simp [hx])) (fun x hx => hsend x (by simp [hx]))
    simp [collect_tx_hashes, h1, h2, h3]

/-- C3. On a non-empty bundler list where every fetch and send
succeeds, `send_bundles` computes an outcome for every owned bundler in
configured order, and returns the FIRST bundler's outcome only. -/
theorem send_bundles_first_outcome (env : Env) (b : Bundler) (bs : List Bundler)
    (uosOf : Bundler → List UserOperation) (hOf : Bundler → Option Nat)
    (hfetch : ∀ b2 ∈ b :: bs,
      env.get_sorted_user_operations b2.entry_point = Except.ok (uosOf b2))
    (hsend : ∀ b2 ∈ b :: bs,
      env.send_bundle b2.entry_point (uosOf b2) = Except.ok (hOf b2)) :
    collect_tx_hashes env (b :: bs) = Except.ok ((b :: bs).map hOf) ∧
      send_bundles env (b :: bs) = RunResult.ok (hOf b) := by
  have hc := collect_tx_hashes_map env (b :: bs) uosOf hOf hfetch hsend
  refine ⟨hc, ?_⟩
  simp [send_bundles, hc]

/-- First concrete bundler used by the witnesses. -/
def bundlerA : Bundler := { entry_point := 1, eth_client := 1 }

/-- Second concrete bundler used by the witnesses. -/
def bundlerB : Bundler := { entry_point := 2, eth_client := 2 }

/-- An environment whose send outcome differs per entry point. -/
def envTwo : Env :=
  { get_sorted_user_operations := fun _ => Except.ok [],
    send_bundle := fun ep _ => Except.ok (some (10 * ep)),
    get_transaction_receipt := fun _ _ _ => Except.ok none }

/-- Witness for C3 with two bundlers producing distinct outcomes: both
are processed, only the first outcome is returned. -/
theorem send_bundles_first_outcome_witness :
    collect_tx_hashes envTwo [bundlerA, bundlerB] = Except.ok [some 10, some 20] ∧
      send_bundles envTwo [bundlerA, bundlerB] = RunResult.ok (some 10) := by
  have h := send_bundles_first_outcome envTwo bundlerA [bundlerB]
    (fun _ => []) (fun b2 => some (10 * b2.entry_point))
    (fun b2 _ => rfl) (fun b2 _ => rfl)
  refine ⟨?_, ?_⟩
  · simpa [bundlerA, bundlerB] using h.1
  · simpa [bundlerA] using h.2

/-- C7. `start_bundling` is a no-op when the flag is already up: the
state (flag and spawned-task accounting alike) is unchanged; when the
flag is down it raises the flag and spawns exactly one periodic task
per owned bundler, and a second call then changes nothing further. -/
theorem start_bundling_idempotent_guard (s : BundlerService) (int1 int2 : Nat) :
    (s.running = true → start_bundling s int1 = s) ∧
      (s.running = false →
        (start_bundling s int1).running = true ∧
          (start_bundling s int1).spawned =
            s.spawned ++ s.bundlers.map (fun b => b.entry_point) ∧
          (start_bundling s int1).bundlers = s.bundlers ∧
          start_bundling (start_bundling s int1) int2 = start_bundling s int1) := by
  constructor
  · intro h
    simp [start_bundling, is_running, h]
  · intro h
    simp [start_bundling, is_running, h]

/-- A stopped service owning one bundler. -/
def svcStopped : BundlerService := BundlerService.new [bundlerA]

/-- Witness for C7 at a concrete stopped service: starting raises the
flag and records one loop task for the single bundler; starting again
changes nothing. -/
theorem start_bundling_idempotent_guard_witness :
    (start_bundling svcStopped 5).running = true ∧
      (start_bundling svcStopped 5).spawned = [1] ∧
      start_bundling (start_bundling svcStopped 5) 7 = start_bundling svcStopped 5 := by
  have h := (start_bundling_idempotent_guard svcStopped 5 7).2 rfl
  exact ⟨h.1, by simpa [svcStopped, BundlerService.new, bundlerA] using h.2.1, h.2.2.2⟩

/-- Generalized run of one periodic loop task, started at tick `t`:
while the flag still reads true the loop executes the tick (whatever
the fetch/send outcomes) and goes on; it breaks at the first tick whose
flag read is false. -/
lemma bundler_loop_reaches_stop (flag : Nat → Bool)
    (fetch : Nat → Except String (List UserOperation))
    (send : Nat → List UserOperation → Except String (Option Nat))
    (t0 : Nat) (hstop : flag t0 = false) :
    ∀ fuel t, t ≤ t0 → (∀ k, t ≤ k → k < t0 → flag k = true) → t0 < t + fuel →
      bundler_loop flag fetch send fuel t =
        some (t0, (List.range' t (t0 - t)).map (tick_event fetch send)) := by
  intro fuel
  induction fuel with
  | zero =>
    intro t h1 h2 h3
    omega
  | succ n ih =>
    intro t h1 h2 h3
    by_cases ht : t = t0
    · subst ht
      simp [bundler_loop, hstop]
    · have htlt : t < t0 := lt_of_le_of_ne h1 ht
      have hft : flag t = true := h2 t le_rfl htlt
      have hrec := ih (t + 1) (by omega) (fun k hk1 hk2 => h2 k (by omega) hk2) (by omega)
      have hsplit : t0 - t = (t0 - (t + 1)) + 1 := by omega
      simp [bundler_loop, hft, hrec, hsplit, List.range'_succ]

/-- C6. The periodic auto-bundling loop runs one tick per time unit:
each tick first re-reads the running flag; with the flag reading true
up to tick `t0` and false at tick `t0`, and for ARBITRARY fetch/send
oracles (failures included), the loop terminates exactly at tick `t0`,
having executed every earlier tick and produced its logged event —
no fetch or send failure terminates it. -/
theorem auto_bundling_loop_stops_on_flag (flag : Nat → Bool)
    (fetch : Nat → Except String (List UserOperation))
    (send : Nat → List UserOperation → Except String (Option Nat))
    (t0 fuel : Nat)
    (hbefore : ∀ k, k < t0 → flag k = true) (hstop : flag t0 = false)
    (hfuel : t0 < fuel) :
    bundler_loop flag fetch send fuel 0 =
      some (t0, (List.range t0).map (tick_event fetch send)) := by
  have h := bundler_loop_reaches_stop flag fetch send t0 hstop fuel 0
    (Nat.zero_le t0) (fun k _ hk2 => hbefore k hk2) (by omega)
  simpa [List.range_eq_range'] using h

/-- A flag that reads true at ticks 0 and 1 and false from tick 2 on. -/
def flagStopsAt2 : Nat → Bool := fun t => t < 2

/-- A fetch oracle that fails at tick 0 and succeeds afterwards. -/
def fetchFlaky : Nat → Except String (List UserOperation) :=
  fun t => if t = 0 then Except.error "fetch down" else Except.ok []

/-- A send oracle that always fails. -/
def sendFlaky : Nat → List UserOperation → Except String (Option Nat) :=
  fun _ _ => Except.error "send down"

/-- Witness for C6: with a fetch failure at tick 0 and a send failure
at tick 1, the loop still runs both ticks (both failures merely become
logged events) and terminates at tick 2, where the flag reads false. -/
theorem auto_bundling_loop_stops_on_flag_witness :
    bundler_loop flagStopsAt2 fetchFlaky sendFlaky 5 0 =
      some (2, [TickEvent.fetchError "fetch down", TickEvent.sendError "send down"]) := by
  have h := auto_bundling_loop_stops_on_flag flagStopsAt2 fetchFlaky sendFlaky 2 5
    (by decide) (by decide) (by norm_num)
  rw [h]
  decide

/-- Behaviour of the receipt-polling loop when no poll before index `N`
observes a receipt (it answers an error or no receipt) and poll `N`
observes one: with at most `N` polls of budget the loop has not
returned; with more it returns after exactly `N + 1` polls. -/
lemma poll_receipt_spec (stub : Nat → Except String (Option Unit)) (N : Nat)
    (hN : ∀ k, k < N → ∀ u, stub k ≠ Except.ok (some u))
    (hs : stub N = Except.ok (some ())) :
    ∀ fuel k, k ≤ N →
      (fuel + k ≤ N → poll_receipt stub fuel k = none) ∧
      (N < fuel + k → poll_receipt stub fuel k = some (N + 1)) := by
  intro fuel
  induction fuel with
  | zero =>
    intro k hk
    exact ⟨fun _ => rfl, fun h => absurd h (by omega)⟩
  | succ n ih =>
    intro k hk
    constructor
    · intro hle
      have hkN : k < N := by omega
      simp only [poll_receipt]
      cases hstub : stub k with
      | error e =>
        exact (ih (k + 1) (by omega)).1 (by omega)
      | ok o =>
        cases o with
        | none => exact (ih (k + 1) (by omega)).1 (by omega)
        | some u => exact absurd hstub (hN k hkN u)
    · intro hlt
      by_cases hkN : k = N
      · subst hkN
        simp [poll_receipt, hs]
      · have hkN2 : k < N := lt_of_le_of_ne hk hkN
        simp only [poll_receipt]
        cases hstub : stub k with
        | error e =>
          exact (ih (k + 1) (by omega)).2 (by omega)
        | ok o =>
          cases o with
          | none => exact (ih (k + 1) (by omega)).2 (by omega)
          | some u => exact absurd hstub (hN k hkN2 u)

/-- C5. `send_bundle_now` first runs `send_bundles`.  When no
transaction was produced it returns at once, with zero receipt polls
and the default (empty) hash.  When a transaction hash was produced and
the receipt query answers no-receipt for the first `N` polls and a
receipt at poll index `N`, the call has not returned within any budget
of at most `N` polls, and returns the hash after exactly `N + 1`
polls. -/
theorem send_bundle_now_waits_for_receipt (env : Env) (s : BundlerService)
    (b0 : Bundler) (N tx : Nat)
    (hhead : s.bundlers.head? = some b0) :
    (send_bundles env s.bundlers = RunResult.ok none →
      ∀ fuel, send_bundle_now env s fuel = some (RunResult.ok (0, 0))) ∧
      (send_bundles env s.bundlers = RunResult.ok (some tx) →
        (∀ k, k < N → env.get_transaction_receipt b0.eth_client tx k = Except.ok none) →
        env.get_transaction_receipt b0.eth_client tx N = Except.ok (some ()) →
        (∀ fuel, fuel ≤ N → send_bundle_now env s fuel = none) ∧
          (∀ fuel, N < fuel → send_bundle_now env s fuel = some (RunResult.ok (N + 1, tx)))) := by
  constructor
  · intro hsb fuel
    simp [send_bundle_now, hsb]
  · intro hsb hnone hsome
    have hN : ∀ k, k < N → ∀ u,
        (fun j => env.get_transaction_receipt b0.eth_client tx j) k ≠
          Except.ok (some u) := by
      intro k hk u hcontra
      have hco : env.get_transaction_receipt b0.eth_client tx k = Except.ok (some u) :=
        hcontra
      rw [hnone k hk] at hco
      exact Option.noConfusion (Except.ok.inj hco)
    have hspec := poll_receipt_spec
      (fun j => env.get_transaction_receipt b0.eth_client tx j) N hN hsome
    constructor
    · intro fuel hfuel
      have hp := (hspec fuel 0 (Nat.zero_le N)).1 (by omega)
      simp [send_bundle_now, hsb, hhead, hp]
    · intro fuel hfuel
      have hp := (hspec fuel 0 (Nat.zero_le N)).2 (by omega)
      simp [send_bundle_now, hsb, hhead, hp]

/-- An environment that produces transaction hash 7 and whose receipt
query observes no receipt on poll indices 0 and 1 and a receipt from
poll index 2 on. -/
def envPoll : Env :=
  { get_sorted_user_operations := fun _ => Except.ok [],
    send_bundle := fun _ _ => Except.ok (some 7),
    get_transaction_receipt := fun _ _ k =>
      if k < 2 then Except.ok none else Except.ok (some ()) }

/-- A service owning the single bundler `bundlerA`. -/
def svcPoll : BundlerService := BundlerService.new [bundlerA]

/-- Witness for C5 with N = 2: within a budget of 2 polls the call has
not returned; with 3 polls it returns the hash after the third poll. -/
theorem send_bundle_now_waits_for_receipt_witness :
    send_bundle_now envPoll svcPoll 2 = none ∧
      send_bundle_now envPoll svcPoll 3 = some (RunResult.ok (3, 7)) := by
  have h := (send_bundle_now_waits_for_receipt envPoll svcPoll bundlerA 2 7 rfl).2
    rfl (by intro k hk; interval_cases k <;> rfl) rfl
  exact ⟨h.1 2 (by norm_num), h.2 3 (by norm_num)⟩

/-- C10. The receipt polling of `send_bundle_now` consults only the
FIRST owned bundler's blockchain client: two runs whose services share
the same first bundler, whose environments agree on that client's
receipt query, and whose `send_bundles` outcomes agree, behave
identically — every other bundler and every other client is
irrelevant.  Moreover a receipt-query error is swallowed: with errors
on the first `N` polls and a receipt at poll `N`, the call still
returns the hash after `N + 1` polls, surfacing no failure. -/
theorem send_bundle_now_first_client_swallows_errors
    (env1 env2 : Env) (s1 s2 : BundlerService) (b0 : Bundler) (fuel : Nat)
    (h1 : s1.bundlers.head? = some b0) (h2 : s2.bundlers.head? = some b0)
    (hrc : env1.get_transaction_receipt b0.eth_client =
      env2.get_transaction_receipt b0.eth_client)
    (hsb : send_bundles env1 s1.bundlers = send_bundles env2 s2.bundlers) :
    send_bundle_now env1 s1 fuel = send_bundle_now env2 s2 fuel ∧
      ∀ (N tx : Nat) (e : Nat → String),
        send_bundles env1 s1.bundlers = RunResult.ok (some tx) →
        (∀ k, k < N →
          env1.get_transaction_receipt b0.eth_client tx k = Except.error (e k)) →
        env1.get_transaction_receipt b0.eth_client tx N = Except.ok (some ()) →
        N < fuel →
        send_bundle_now env1 s1 fuel = some (RunResult.ok (N + 1, tx)) := by
  constructor
  · simp only [send_bundle_now, hsb, h1, h2]
    cases hv : send_bundles env2 s2.bundlers with
    | ok o =>
      cases o with
        | none => rfl
        | some tx => rw [hrc]
    | err e => rfl
    | panic m => rfl
  · intro N tx e hsb1 herr hsome hfuel
    have hN : ∀ k, k < N → ∀ u,
        (fun j => env1.get_transaction_receipt b0.eth_client tx j) k ≠
          Except.ok (some u) := by
      intro k hk u hcontra
      have hco : env1.get_transaction_receipt b0.eth_client tx k = Except.ok (some u) :=
        hcontra
      rw [herr k hk] at hco
      exact Except.noConfusion hco
    have hp := (poll_receipt_spec
      (fun j => env1.get_transaction_receipt b0.eth_client tx j) N hN hsome
      fuel 0 (Nat.zero_le N)).2 (by omega)
    simp [send_bundle_now, hsb1, h1, hp]

/-- An environment that produces transaction hash 9 and whose receipt
query fails on poll indices 0 and 1 and observes a receipt from poll
index 2 on. -/
def envErrPoll : Env :=
  { get_sorted_user_operations := fun _ => Except.ok [],
    send_bundle := fun _ _ => Except.ok (some 9),
    get_transaction_receipt := fun _ _ k =>
      if k < 2 then Except.error "rpc down" else Except.ok (some ()) }

/-- A second service owning the single bundler `bundlerA`. -/
def svcErrPoll : BundlerService := BundlerService.new [bundlerA]

/-- A variant of `envErrPoll` whose receipt query agrees with it on
client 1 only and always fails on every other client. -/
def envErrPoll2 : Env :=
  { get_sorted_user_operations := fun _ => Except.ok [],
    send_bundle := fun _ _ => Except.ok (some 9),
    get_transaction_receipt := fun c _ k =>
      if c = 1 then
        (if k < 2 then Except.error "rpc down" else Except.ok (some ()))
      else Except.error "client two always fails" }

/-- A service owning `bundlerA` and then `bundlerB`. -/
def svcErrPoll2 : BundlerService := BundlerService.new [bundlerA, bundlerB]

/-- Witness for C10: with receipt-query errors on the first two polls,
`send_bundle_now` still returns the hash after the third poll; and a
run against a service with an extra second bundler whose client's
receipt query always fails behaves identically — only the first
bundler's client is consulted. -/
theorem send_bundle_now_first_client_swallows_errors_witness :
    send_bundle_now envErrPoll svcErrPoll 4 = send_bundle_now envErrPoll2 svcErrPoll2 4 ∧
      send_bundle_now envErrPoll svcErrPoll 4 = some (RunResult.ok (3, 9)) := by
  have h := send_bundle_now_first_client_swallows_errors envErrPoll envErrPoll2
    svcErrPoll svcErrPoll2 bundlerA 4 rfl rfl rfl rfl
  exact ⟨h.1, h.2 2 9 (fun _ => "rpc down")
    rfl (by intro k hk; interval_cases k <;> rfl) rfl (by norm_num)⟩
